import Mathlib

/-!
Verification of the UEFI capsule codec, validation engine and mutators of
`capsule-tool.py` (with the GUID validity model of `guid.py`).

The byte-level codec is a shallow embedding of the `construct` declaration
`efi_capsule`: a buffer is a `List Nat` of byte values, parsing consumes a
prefix and returns the remaining suffix, and building returns the emitted
bytes.  Machine integers are modelled as `Int` (Python integers), with the
u8/u16/u32/u64 range enforced where `construct` enforces it: at parse time a
field value is always in range because it is assembled from bytes, and at
build time an out-of-range value makes `construct` raise, which we model as
`none`.  A computed array count that is negative makes `construct`'s `Array`
raise `RangeError` at parse and at build time; a wrong list length raises at
build time; both are modelled as `none`.
-/

/-- A byte buffer.  Elements of a Python `bytes` object are always in
`[0, 256)`; the primitive byte reader checks this so that only genuine byte
buffers parse successfully. -/
abbrev Bytes := List Nat

/-- Read `k` bytes little-endian (the `construct` `Int8ul`/`Int16ul`/
`Int32ul`/`Int64ul` format fields), returning the value and the rest of the
buffer.  A truncated buffer is a parse error. -/
def parseULE : Nat → Bytes → Option (Nat × Bytes)
  | 0, bs => some (0, bs)
  | _ + 1, [] => none
  | k + 1, b :: bs =>
    if b < 256 then
      match parseULE k bs with
      | none => none
      | some (v, rest) => some (b + 256 * v, rest)
    else none

/-- Emit `k` bytes little-endian.  Fails (as `construct` raises) when the
value does not fit in `k` bytes. -/
def buildULE : Nat → Nat → Option Bytes
  | 0, v => if v = 0 then some [] else none
  | k + 1, v =>
    match buildULE k (v / 256) with
    | none => none
    | some l => some (v % 256 :: l)

/-- Parse an unsigned `k`-byte little-endian field as a Python integer. -/
def parseUInt (k : Nat) (bs : Bytes) : Option (Int × Bytes) :=
  (parseULE k bs).map fun p => ((p.1 : Int), p.2)

/-- Build an unsigned `k`-byte little-endian field from a Python integer;
negative or too-large values make `construct` raise. -/
def buildUInt (k : Nat) (v : Int) : Option Bytes :=
  if 0 ≤ v then buildULE k v.toNat else none

/-- Parse `n` consecutive elements with `p`. -/
def parseArrayN {α : Type} (p : Bytes → Option (α × Bytes)) :
    Nat → Bytes → Option (List α × Bytes)
  | 0, bs => some ([], bs)
  | n + 1, bs => do
    let (x, bs1) ← p bs
    let (xs, rest) ← parseArrayN p n bs1
    some (x :: xs, rest)

/-- Build a list of elements with `b`, concatenating the outputs. -/
def buildList {α : Type} (b : α → Option Bytes) : List α → Option Bytes
  | [] => some []
  | x :: xs => do
    let l ← b x
    let ls ← buildList b xs
    some (l ++ ls)

/-- The `construct` `Array` subconstruct with a count computed from sibling
fields: a negative count raises `RangeError` (never clamped). -/
def parseCountedArray {α : Type} (p : Bytes → Option (α × Bytes))
    (count : Int) (bs : Bytes) : Option (List α × Bytes) :=
  if count < 0 then none else parseArrayN p count.toNat bs

/-- Building a `construct` `Array`: a negative computed count raises, and the
list length must equal the computed count. -/
def buildCountedArray {α : Type} (b : α → Option Bytes)
    (count : Int) (xs : List α) : Option Bytes :=
  if count < 0 then none
  else if xs.length = count.toNat then buildList b xs else none

/-- The `efi_guid` structure of `capsule-tool.py`. -/
structure EfiGuid where
  TimeLow : Int
  TimeMid : Int
  TimeHighAndVersion : Int
  ClockSeqHighAndReserved : Int
  ClockSeqLow : Int
  Node : List Int
deriving DecidableEq

/-- `efi_guid.sizeof()` = 4 + 2 + 2 + 1 + 1 + 6. -/
def efiGuidSizeof : Int := 16

/-- `CapsuleHeader` of `efi_capsule`. -/
structure CapsuleHeader where
  CapsuleGuid : EfiGuid
  HeaderSize : Int
  Flags : Int
  CapsuleImageSize : Int
deriving DecidableEq

/-- `this._subcons.CapsuleHeader.sizeof()` = 16 + 4 + 4 + 4. -/
def capsuleHeaderSizeof : Int := 28

/-- `FirmwareManagementCapsuleHeader` of `efi_capsule`. -/
structure FirmwareManagementCapsuleHeader where
  Version : Int
  EmbeddedDriverCount : Int
  PayloadItemCount : Int
  ItemOffsetList : List Int
deriving DecidableEq

/-- `AuthInfo.Hdr` (the `WIN_CERTIFICATE` header). -/
structure Hdr where
  dwLength : Int
  wRevision : Int
  wCertificateType : Int
deriving DecidableEq

/-- `this._subcons.Hdr.sizeof()` = 4 + 2 + 2. -/
def hdrSizeof : Int := 8

/-- `AuthInfo` (the `WIN_CERTIFICATE_UEFI_GUID` structure). -/
structure AuthInfo where
  Hdr : Hdr
  CertType : EfiGuid
  CertData : List Int
deriving DecidableEq

/-- `FirmwareImageAuthentication` of the authenticated payload variant. -/
structure FirmwareImageAuthentication where
  MonotonicCount : Int
  AuthInfo : AuthInfo
deriving DecidableEq

/-- `this._subcons.FirmwareImageAuthentication.MonotonicCount.sizeof()`. -/
def monotonicCountSizeof : Int := 8

/-- `FirmwareManagementCapsuleImageHeader` of `efi_capsule`.  The two
version-gated fields are `construct.If` subconstructs and parse to `None`
(here `none`) when the version threshold is not met. -/
structure FirmwareManagementCapsuleImageHeader where
  Version : Int
  UpdateImageTypeId : EfiGuid
  UpdateImageIndex : Int
  reserved_bytes : List Int
  UpdateImageSize : Int
  UpdateVendorCodeSize : Int
  UpdateHardwareInstance : Option Int
  ImageCapsuleSupport : Option Int
deriving DecidableEq

/-- `BinaryUpdateImage`: the `construct.IfThenElse` keeps one container; the
authenticated variant has the `FirmwareImageAuthentication` key, the
unauthenticated one does not (`none` models the absent key, and
`de_authenticate` deletes the key). -/
structure BinaryUpdateImage where
  FirmwareImageAuthentication : Option FirmwareImageAuthentication
  FirmwareImage : List Int
deriving DecidableEq

/-- `Payload1` of `efi_capsule`. -/
structure Payload1 where
  FirmwareManagementCapsuleImageHeader : FirmwareManagementCapsuleImageHeader
  BinaryUpdateImage : BinaryUpdateImage
deriving DecidableEq

/-- `CapsuleBody` of `efi_capsule`. -/
structure CapsuleBody where
  FirmwareManagementCapsuleHeader : FirmwareManagementCapsuleHeader
  Payload1 : Payload1
deriving DecidableEq

/-- A parsed `efi_capsule` container. -/
structure Capsule where
  CapsuleHeader : CapsuleHeader
  Padding : List Int
  CapsuleBody : CapsuleBody
  RemainingBytes : Bytes
deriving DecidableEq

def CAPSULE_FLAGS_PERSIST_ACROSS_RESET : Int := 0x10000
def CAPSULE_FLAGS_POPULATE_SYSTEM_TABLE : Int := 0x20000
def CAPSULE_FLAGS_INITIATE_RESET : Int := 0x40000
def CAPSULE_SUPPORT_AUTHENTICATION : Int := 1
def CAPSULE_SUPPORT_DEPENDENCY : Int := 2
def WIN_CERT_TYPE_EFI_GUID : Int := 0xEF1

/-- Parse an `efi_guid` structure. -/
def parseEfiGuid (bs : Bytes) : Option (EfiGuid × Bytes) := do
  let (tl, bs1) ← parseUInt 4 bs
  let (tm, bs2) ← parseUInt 2 bs1
  let (th, bs3) ← parseUInt 2 bs2
  let (ch, bs4) ← parseUInt 1 bs3
  let (cl, bs5) ← parseUInt 1 bs4
  let (node, bs6) ← parseCountedArray (parseUInt 1) 6 bs5
  some ({ TimeLow := tl, TimeMid := tm, TimeHighAndVersion := th,
          ClockSeqHighAndReserved := ch, ClockSeqLow := cl, Node := node }, bs6)

/-- Build an `efi_guid` structure (`efi_guid.build`). -/
def buildEfiGuid (g : EfiGuid) : Option Bytes := do
  let l1 ← buildUInt 4 g.TimeLow
  let l2 ← buildUInt 2 g.TimeMid
  let l3 ← buildUInt 2 g.TimeHighAndVersion
  let l4 ← buildUInt 1 g.ClockSeqHighAndReserved
  let l5 ← buildUInt 1 g.ClockSeqLow
  let l6 ← buildCountedArray (buildUInt 1) 6 g.Node
  some (l1 ++ l2 ++ l3 ++ l4 ++ l5 ++ l6)

/-- The field values of `EFI_FIRMWARE_MANAGEMENT_CAPSULE_ID_GUID`. -/
def fmpCapsuleIdGuid : EfiGuid :=
  { TimeLow := 0x6dcbd5ed, TimeMid := 0xe82d, TimeHighAndVersion := 0x4c44,
    ClockSeqHighAndReserved := 0xbd, ClockSeqLow := 0xa1,
    Node := [0x71, 0x94, 0x19, 0x9a, 0xd9, 0x2a] }

/-- `EFI_FIRMWARE_MANAGEMENT_CAPSULE_ID_GUID = efi_guid.build(...)`; the
build of this constant succeeds, so `getD` never takes its default. -/
def EFI_FIRMWARE_MANAGEMENT_CAPSULE_ID_GUID : Bytes :=
  (buildEfiGuid fmpCapsuleIdGuid).getD []

/-- The field values of `EFI_CERT_TYPE_PKCS7_GUID`. -/
def pkcs7CertTypeGuid : EfiGuid :=
  { TimeLow := 0x4aafd29d, TimeMid := 0x68df, TimeHighAndVersion := 0x49ee,
    ClockSeqHighAndReserved := 0x8a, ClockSeqLow := 0xa9,
    Node := [0x34, 0x7d, 0x37, 0x56, 0x65, 0xa7] }

/-- `EFI_CERT_TYPE_PKCS7_GUID = efi_guid.build(...)`. -/
def EFI_CERT_TYPE_PKCS7_GUID : Bytes :=
  (buildEfiGuid pkcs7CertTypeGuid).getD []

/-- Parse the `CapsuleHeader` structure. -/
def parseCapsuleHeader (bs : Bytes) : Option (CapsuleHeader × Bytes) := do
  let (g, bs1) ← parseEfiGuid bs
  let (hs, bs2) ← parseUInt 4 bs1
  let (fl, bs3) ← parseUInt 4 bs2
  let (cis, bs4) ← parseUInt 4 bs3
  some ({ CapsuleGuid := g, HeaderSize := hs, Flags := fl,
          CapsuleImageSize := cis }, bs4)

/-- Build the `CapsuleHeader` structure. -/
def buildCapsuleHeader (h : CapsuleHeader) : Option Bytes := do
  let l1 ← buildEfiGuid h.CapsuleGuid
  let l2 ← buildUInt 4 h.HeaderSize
  let l3 ← buildUInt 4 h.Flags
  let l4 ← buildUInt 4 h.CapsuleImageSize
  some (l1 ++ l2 ++ l3 ++ l4)

/-- Parse the `FirmwareManagementCapsuleHeader` structure; `ItemOffsetList`
has `EmbeddedDriverCount + PayloadItemCount` u64 entries. -/
def parseFmcHeader (bs : Bytes) :
    Option (FirmwareManagementCapsuleHeader × Bytes) := do
  let (v, bs1) ← parseUInt 4 bs
  let (edc, bs2) ← parseUInt 2 bs1
  let (pic, bs3) ← parseUInt 2 bs2
  let (iol, bs4) ← parseCountedArray (parseUInt 8) (edc + pic) bs3
  some ({ Version := v, EmbeddedDriverCount := edc, PayloadItemCount := pic,
          ItemOffsetList := iol }, bs4)

/-- Build the `FirmwareManagementCapsuleHeader` structure. -/
def buildFmcHeader (h : FirmwareManagementCapsuleHeader) : Option Bytes := do
  let l1 ← buildUInt 4 h.Version
  let l2 ← buildUInt 2 h.EmbeddedDriverCount
  let l3 ← buildUInt 2 h.PayloadItemCount
  let l4 ← buildCountedArray (buildUInt 8)
    (h.EmbeddedDriverCount + h.PayloadItemCount) h.ItemOffsetList
  some (l1 ++ l2 ++ l3 ++ l4)

/-- Parse the `FirmwareManagementCapsuleImageHeader` structure.
`UpdateHardwareInstance` is present iff `Version >= 2` and
`ImageCapsuleSupport` iff `Version >= 3` (`construct.If`). -/
def parseFmcImageHeader (bs : Bytes) :
    Option (FirmwareManagementCapsuleImageHeader × Bytes) := do
  let (v, bs1) ← parseUInt 4 bs
  let (tid, bs2) ← parseEfiGuid bs1
  let (idx, bs3) ← parseUInt 1 bs2
  let (rsv, bs4) ← parseCountedArray (parseUInt 1) 3 bs3
  let (uis, bs5) ← parseUInt 4 bs4
  let (uvcs, bs6) ← parseUInt 4 bs5
  let (uhi, bs7) ←
    (if 2 ≤ v then (parseUInt 8 bs6).map fun p => (some p.1, p.2)
     else some (none, bs6))
  let (ics, bs8) ←
    (if 3 ≤ v then (parseUInt 8 bs7).map fun p => (some p.1, p.2)
     else some (none, bs7))
  some ({ Version := v, UpdateImageTypeId := tid, UpdateImageIndex := idx,
          reserved_bytes := rsv, UpdateImageSize := uis,
          UpdateVendorCodeSize := uvcs, UpdateHardwareInstance := uhi,
          ImageCapsuleSupport := ics }, bs8)

/-- Build the `FirmwareManagementCapsuleImageHeader` structure.  For a
version-gated field whose condition holds, `construct` builds the stored
value and raises when it is `None`; when the condition fails, `If` builds
nothing (`Pass`). -/
def buildFmcImageHeader (h : FirmwareManagementCapsuleImageHeader) :
    Option Bytes := do
  let l1 ← buildUInt 4 h.Version
  let l2 ← buildEfiGuid h.UpdateImageTypeId
  let l3 ← buildUInt 1 h.UpdateImageIndex
  let l4 ← buildCountedArray (buildUInt 1) 3 h.reserved_bytes
  let l5 ← buildUInt 4 h.UpdateImageSize
  let l6 ← buildUInt 4 h.UpdateVendorCodeSize
  let l7 ← (if 2 ≤ h.Version then h.UpdateHardwareInstance.bind (buildUInt 8)
            else some [])
  let l8 ← (if 3 ≤ h.Version then h.ImageCapsuleSupport.bind (buildUInt 8)
            else some [])
  some (l1 ++ l2 ++ l3 ++ l4 ++ l5 ++ l6 ++ l7 ++ l8)

/-- The `IfThenElse` condition selecting the payload variant:
`Version < 3 or (ImageCapsuleSupport & CAPSULE_SUPPORT_AUTHENTICATION)`.
Python's `or` short-circuits; reading `ImageCapsuleSupport` when it is
`None` (possible from version 3 on only for hand-made containers) raises a
`TypeError`, modelled as `none`. -/
def authVariantCond (h : FirmwareManagementCapsuleImageHeader) : Option Bool :=
  if h.Version < 3 then some true
  else h.ImageCapsuleSupport.map fun ics =>
    decide (Int.land ics CAPSULE_SUPPORT_AUTHENTICATION ≠ 0)

/-- Parse the `BinaryUpdateImage` variant given the already-parsed image
header.  Authenticated: `FirmwareImageAuthentication` then
`UpdateImageSize - sizeof(MonotonicCount) - dwLength` image bytes, with
`CertData` of `dwLength - sizeof(Hdr) - sizeof(CertType)` bytes.
Unauthenticated: `UpdateImageSize` image bytes. -/
def parseBinaryUpdateImage (h : FirmwareManagementCapsuleImageHeader)
    (bs : Bytes) : Option (BinaryUpdateImage × Bytes) := do
  let cond ← authVariantCond h
  if cond then do
    let (mc, bs1) ← parseUInt 8 bs
    let (dwl, bs2) ← parseUInt 4 bs1
    let (wrev, bs3) ← parseUInt 2 bs2
    let (wct, bs4) ← parseUInt 2 bs3
    let (ct, bs5) ← parseEfiGuid bs4
    let (cd, bs6) ← parseCountedArray (parseUInt 1)
      (dwl - hdrSizeof - efiGuidSizeof) bs5
    let (fw, bs7) ← parseCountedArray (parseUInt 1)
      (h.UpdateImageSize - monotonicCountSizeof - dwl) bs6
    some ({ FirmwareImageAuthentication := some
              { MonotonicCount := mc,
                AuthInfo := { Hdr := { dwLength := dwl, wRevision := wrev,
                                       wCertificateType := wct },
                              CertType := ct, CertData := cd } },
            FirmwareImage := fw }, bs7)
  else do
    let (fw, bs1) ← parseCountedArray (parseUInt 1) h.UpdateImageSize bs
    some ({ FirmwareImageAuthentication := none, FirmwareImage := fw }, bs1)

/-- Build the `BinaryUpdateImage` variant.  The branch is re-evaluated from
the image header; building the authenticated branch after the
`FirmwareImageAuthentication` key was deleted raises (`none`). -/
def buildBinaryUpdateImage (h : FirmwareManagementCapsuleImageHeader)
    (bui : BinaryUpdateImage) : Option Bytes := do
  let cond ← authVariantCond h
  if cond then do
    let fia ← bui.FirmwareImageAuthentication
    let l1 ← buildUInt 8 fia.MonotonicCount
    let l2 ← buildUInt 4 fia.AuthInfo.Hdr.dwLength
    let l3 ← buildUInt 2 fia.AuthInfo.Hdr.wRevision
    let l4 ← buildUInt 2 fia.AuthInfo.Hdr.wCertificateType
    let l5 ← buildEfiGuid fia.AuthInfo.CertType
    let l6 ← buildCountedArray (buildUInt 1)
      (fia.AuthInfo.Hdr.dwLength - hdrSizeof - efiGuidSizeof)
      fia.AuthInfo.CertData
    let l7 ← buildCountedArray (buildUInt 1)
      (h.UpdateImageSize - monotonicCountSizeof - fia.AuthInfo.Hdr.dwLength)
      bui.FirmwareImage
    some (l1 ++ l2 ++ l3 ++ l4 ++ l5 ++ l6 ++ l7)
  else
    buildCountedArray (buildUInt 1) h.UpdateImageSize bui.FirmwareImage

/-- `efi_capsule.parse`: decode a full capsule.  `Padding` has
`HeaderSize - sizeof(CapsuleHeader)` bytes and `RemainingBytes` greedily
takes the rest of the buffer, so a successful parse consumes everything.
Decoding is atomic: it returns a fully populated capsule or `none`. -/
def parseCapsule (bs : Bytes) : Option Capsule := do
  let (hdr, bs1) ← parseCapsuleHeader bs
  let (pad, bs2) ← parseCountedArray (parseUInt 1)
    (hdr.HeaderSize - capsuleHeaderSizeof) bs1
  let (fmch, bs3) ← parseFmcHeader bs2
  let (fmcih, bs4) ← parseFmcImageHeader bs3
  let (bui, bs5) ← parseBinaryUpdateImage fmcih bs4
  some { CapsuleHeader := hdr, Padding := pad,
         CapsuleBody :=
           { FirmwareManagementCapsuleHeader := fmch,
             Payload1 :=
               { FirmwareManagementCapsuleImageHeader := fmcih,
                 BinaryUpdateImage := bui } },
         RemainingBytes := bs5 }

/-- `efi_capsule.build`: encode a capsule back to bytes. -/
def buildCapsule (c : Capsule) : Option Bytes := do
  let l1 ← buildCapsuleHeader c.CapsuleHeader
  let l2 ← buildCountedArray (buildUInt 1)
    (c.CapsuleHeader.HeaderSize - capsuleHeaderSizeof) c.Padding
  let l3 ← buildFmcHeader c.CapsuleBody.FirmwareManagementCapsuleHeader
  let l4 ← buildFmcImageHeader
    c.CapsuleBody.Payload1.FirmwareManagementCapsuleImageHeader
  let l5 ← buildBinaryUpdateImage
    c.CapsuleBody.Payload1.FirmwareManagementCapsuleImageHeader
    c.CapsuleBody.Payload1.BinaryUpdateImage
  some (l1 ++ l2 ++ l3 ++ l4 ++ l5 ++ c.RemainingBytes)

/-- Decoding bytes to a capsule (`efi_capsule.parse_file`). -/
def decode (bs : Bytes) : Option Capsule := parseCapsule bs

/-- Encoding a capsule to bytes (`efi_capsule.build_file`). -/
def encode (c : Capsule) : Option Bytes := buildCapsule c

/-!
The validation engine of `sanity_check_capsule`.  Each entry of `checks` is
the `check` lambda of the corresponding dictionary in the source, in source
order.  A check returns `none` when evaluating the Python lambda raises an
exception (reading an absent `construct.If` field, reading a deleted
container key, or `efi_guid.build` failing); the engine's `try`/`except`
treats that as the check failing.
-/

/-- The ordered check list of `sanity_check_capsule` (19 rules). -/
def capsuleChecks : List (Capsule → Option Bool) := [
  -- capsule-guid: efi_guid.build(CapsuleGuid) == EFI_FIRMWARE_MANAGEMENT_CAPSULE_ID_GUID
  fun c => (buildEfiGuid c.CapsuleHeader.CapsuleGuid).map
    fun l => decide (l = EFI_FIRMWARE_MANAGEMENT_CAPSULE_ID_GUID),
  -- header-size: HeaderSize >= 28
  fun c => some (decide (28 ≤ c.CapsuleHeader.HeaderSize)),
  -- flags: not (Flags & ~(PERSIST_ACROSS_RESET | POPULATE_SYSTEM_TABLE | INITIATE_RESET))
  fun c => some (decide (Int.land c.CapsuleHeader.Flags
    (Int.lnot (Int.lor (Int.lor CAPSULE_FLAGS_PERSIST_ACROSS_RESET
      CAPSULE_FLAGS_POPULATE_SYSTEM_TABLE) CAPSULE_FLAGS_INITIATE_RESET)) = 0)),
  -- image-size: CapsuleImageSize >= 28
  fun c => some (decide (28 ≤ c.CapsuleHeader.CapsuleImageSize)),
  -- fmc-version: FirmwareManagementCapsuleHeader.Version == 1
  fun c => some (decide
    (c.CapsuleBody.FirmwareManagementCapsuleHeader.Version = 1)),
  -- no-embedded-drivers: not EmbeddedDriverCount
  fun c => some (decide
    (c.CapsuleBody.FirmwareManagementCapsuleHeader.EmbeddedDriverCount = 0)),
  -- single-payload: PayloadItemCount == 1
  fun c => some (decide
    (c.CapsuleBody.FirmwareManagementCapsuleHeader.PayloadItemCount = 1)),
  -- image-header-version: FirmwareManagementCapsuleImageHeader.Version == 3
  fun c => some (decide
    (c.CapsuleBody.Payload1.FirmwareManagementCapsuleImageHeader.Version = 3)),
  -- reserved-zero: tuple(reserved_bytes) == (0, 0, 0)
  fun c => some (decide
    (c.CapsuleBody.Payload1.FirmwareManagementCapsuleImageHeader.reserved_bytes
      = [0, 0, 0])),
  -- update-image-size: UpdateImageSize > 32
  fun c => some (decide (32 <
    c.CapsuleBody.Payload1.FirmwareManagementCapsuleImageHeader.UpdateImageSize)),
  -- vendor-code-zero: not UpdateVendorCodeSize
  fun c => some (decide
    (c.CapsuleBody.Payload1.FirmwareManagementCapsuleImageHeader.UpdateVendorCodeSize
      = 0)),
  -- support-bits-known: Version < 3 or not (ImageCapsuleSupport & ~(AUTHENTICATION | DEPENDENCY))
  fun c =>
    if c.CapsuleBody.Payload1.FirmwareManagementCapsuleImageHeader.Version < 3
    then some true
    else (c.CapsuleBody.Payload1.FirmwareManagementCapsuleImageHeader.ImageCapsuleSupport).map
      fun ics => decide (Int.land ics
        (Int.lnot (Int.lor CAPSULE_SUPPORT_AUTHENTICATION
          CAPSULE_SUPPORT_DEPENDENCY)) = 0),
  -- no-dependency: Version < 3 or not (ImageCapsuleSupport & DEPENDENCY)
  fun c =>
    if c.CapsuleBody.Payload1.FirmwareManagementCapsuleImageHeader.Version < 3
    then some true
    else (c.CapsuleBody.Payload1.FirmwareManagementCapsuleImageHeader.ImageCapsuleSupport).map
      fun ics => decide (Int.land ics CAPSULE_SUPPORT_DEPENDENCY = 0),
  -- authentication-required: Version < 3 or (ImageCapsuleSupport & AUTHENTICATION)
  fun c =>
    if c.CapsuleBody.Payload1.FirmwareManagementCapsuleImageHeader.Version < 3
    then some true
    else (c.CapsuleBody.Payload1.FirmwareManagementCapsuleImageHeader.ImageCapsuleSupport).map
      fun ics => decide (Int.land ics CAPSULE_SUPPORT_AUTHENTICATION ≠ 0),
  -- auth-length: dwLength >= 9
  fun c => (c.CapsuleBody.Payload1.BinaryUpdateImage.FirmwareImageAuthentication).map
    fun fia => decide (9 ≤ fia.AuthInfo.Hdr.dwLength),
  -- auth-revision: wRevision == 0x200
  fun c => (c.CapsuleBody.Payload1.BinaryUpdateImage.FirmwareImageAuthentication).map
    fun fia => decide (fia.AuthInfo.Hdr.wRevision = 0x200),
  -- auth-cert-type: wCertificateType == WIN_CERT_TYPE_EFI_GUID
  fun c => (c.CapsuleBody.Payload1.BinaryUpdateImage.FirmwareImageAuthentication).map
    fun fia => decide (fia.AuthInfo.Hdr.wCertificateType = WIN_CERT_TYPE_EFI_GUID),
  -- auth-guid: efi_guid.build(CertType) == EFI_CERT_TYPE_PKCS7_GUID
  fun c => (c.CapsuleBody.Payload1.BinaryUpdateImage.FirmwareImageAuthentication).bind
    fun fia => (buildEfiGuid fia.AuthInfo.CertType).map
      fun l => decide (l = EFI_CERT_TYPE_PKCS7_GUID),
  -- no-trailing-bytes: not len(RemainingBytes)
  fun c => some (decide (c.RemainingBytes.length = 0))]

/-- The check loop of `sanity_check_capsule`: starting from result `r`, run
each check under `try`/`except` (an exception sets `r = False`), and break
at the first failure unless `force`.  Also returns how many checks were
evaluated, the observable count of rule evaluations. -/
def runChecksLoop (c : Capsule) (force : Bool) :
    List (Capsule → Option Bool) → Bool → Bool × Nat
  | [], r => (r, 0)
  | x :: xs, r =>
    let r1 := match x c with
      | some b => r && b
      | none => false
    if !r1 && !force then (r1, 1)
    else
      let p := runChecksLoop c force xs r1
      (p.1, p.2 + 1)

/-- `sanity_check_capsule`: run the checks from `r = True`; at the end, a
failed run is forced to success when `force` is set. -/
def sanity_check_capsule (c : Capsule) (force : Bool) : Bool :=
  (runChecksLoop c force capsuleChecks true).1 || force

/-- The per-rule exception handler made explicit: a rule whose evaluation
raises (`none`) is replaced by a rule that definitely fails. -/
def catchRule (x : Capsule → Option Bool) : Capsule → Option Bool :=
  fun c => some ((x c).getD false)

/-!
The `Guid` class of `guid.py`.  A `Guid` stores the 16 GUID bytes.
`Guid.__init__` validates the value via `uuid.UUID`: the variant must be
RFC 4122, the version must be 1, 3, 4 or 5, and a version-1 timestamp must
lie between 1998-01-01 and one day past `datetime.now()`.  Time is modelled
in exact 100 ns ticks since the UUID epoch 1582-10-15; the Python source
goes through float microseconds (`ns100 / 10`), which agrees with the exact
value to within 2 microseconds in the date ranges involved, far below the
day-level granularity of the checks.
-/

/-- The `Guid` dataclass: GUID bytes (a Python `bytes` value). -/
structure Guid where
  b : List Nat
deriving DecidableEq

/-- `int.from_bytes(l, byteorder='little')`. -/
def bytesLE (l : List Nat) : Nat := l.foldr (fun b acc => b + 256 * acc) 0

/-- 100 ns ticks from the UUID epoch 1582-10-15 to 1998-01-01
(151654 days). -/
def GUID_TICKS_1998 : Nat := 151654 * 864000000000

/-- 100 ns ticks in the one-day timezone margin. -/
def GUID_TICKS_ONE_DAY : Nat := 864000000000

/-- The `uuid.time` value of the GUID: `(TimeHighAndVersion & 0x0fff) << 48
| TimeMid << 32 | TimeLow`. -/
def guidTimeTicks (x : List Nat) : Nat :=
  (bytesLE ((x.drop 6).take 2) % 4096) * 2 ^ 48
    + bytesLE ((x.drop 4).take 2) * 2 ^ 32 + bytesLE (x.take 4)

/-- `Guid.__init__` from bytes, given the current time as 100 ns ticks
since the UUID epoch: length check, then variant, version and (for
version 1) timestamp validation; any failed check raises `ValueError`
(`none`).  The `x.all` guard reflects that a Python `bytes` object only
holds values below 256 (out-of-range field values would make `uuid.UUID`
raise). -/
def guidInit (x : List Nat) (nowTicks : Nat) : Option Guid :=
  if x.length = 16 ∧ x.all (fun v => v < 256) then
    -- variant: RFC 4122 iff the top two bits of ClockSeqHighAndReserved are 10
    if x.getD 8 0 / 64 = 2 then
      -- version: the top nibble of TimeHighAndVersion
      let ver := bytesLE ((x.drop 6).take 2) / 4096
      if ver = 1 ∨ ver = 3 ∨ ver = 4 ∨ ver = 5 then
        if ver = 1 then
          if guidTimeTicks x < GUID_TICKS_1998 then none
          else if nowTicks + GUID_TICKS_ONE_DAY < guidTimeTicks x then none
          else some { b := x }
        else some { b := x }
      else none
    else none
  else none

/-- `check_capsule_guid`: build the `UpdateImageTypeId` bytes, construct a
`Guid` from them (validating it), run the external guid tool (a non-zero
exit is `sys.exit(1)`, modelled by `guidToolOk = false` giving `none`), and
compare against the expected GUID when one is supplied.  On a mismatch the
result `r` is `False`; with `force` the source only logs a warning and
still returns `r` unchanged.  `none` models the aborts (uncaught
`ValueError` from `Guid`, or `sys.exit`). -/
def check_capsule_guid (c : Capsule) (guidToolOk : Bool)
    (exp_guid : Option (List Nat)) (force : Bool) (nowTicks : Nat) :
    Option Bool := do
  let gb ← buildEfiGuid
    c.CapsuleBody.Payload1.FirmwareManagementCapsuleImageHeader.UpdateImageTypeId
  let g ← guidInit gb nowTicks
  if !guidToolOk then none
  else do
    let r ← match exp_guid with
      | none => some true
      | some eb => do
          let e ← guidInit eb nowTicks
          some (decide (g = e))
    -- `if not r and force:` only logs a warning; `r` is returned as is
    some r

/-- `de_authenticate`: clear the authentication flag, subtract
`dwLength + 8` from both sizes and delete the firmware image
authentication.  A version below 3 is a fatal `sys.exit(1)`; reading an
absent `ImageCapsuleSupport` or a deleted `FirmwareImageAuthentication`
raises; both abort the process (`none`). -/
def de_authenticate (c : Capsule) : Option Capsule :=
  let fmcih := c.CapsuleBody.Payload1.FirmwareManagementCapsuleImageHeader
  if fmcih.Version < 3 then none
  else do
    let ics ← fmcih.ImageCapsuleSupport
    let fia ← c.CapsuleBody.Payload1.BinaryUpdateImage.FirmwareImageAuthentication
    let fiasz := fia.AuthInfo.Hdr.dwLength + monotonicCountSizeof
    some { c with
      CapsuleHeader := { c.CapsuleHeader with
        CapsuleImageSize := c.CapsuleHeader.CapsuleImageSize - fiasz },
      CapsuleBody := { c.CapsuleBody with
        Payload1 := { c.CapsuleBody.Payload1 with
          FirmwareManagementCapsuleImageHeader := { fmcih with
            ImageCapsuleSupport :=
              some (Int.land ics (Int.lnot CAPSULE_SUPPORT_AUTHENTICATION)),
            UpdateImageSize := fmcih.UpdateImageSize - fiasz },
          BinaryUpdateImage := { c.CapsuleBody.Payload1.BinaryUpdateImage with
            FirmwareImageAuthentication := none } } } }

/-- `tamper`: invert bit `b` of firmware image byte `n` via XOR.  The
source draws `n` uniformly from `[0, len(FirmwareImage))` and `b` from
`[0, 8)` with `random.randint`; the draws are parameters here. -/
def tamper (c : Capsule) (n b : Nat) : Capsule :=
  let fi := c.CapsuleBody.Payload1.BinaryUpdateImage.FirmwareImage
  let fi2 := fi.set n (Int.xor (fi.getD n 0) ((1 : Int) <<< (b : Int)))
  { c with
    CapsuleBody := { c.CapsuleBody with
      Payload1 := { c.CapsuleBody.Payload1 with
        BinaryUpdateImage := { c.CapsuleBody.Payload1.BinaryUpdateImage with
          FirmwareImage := fi2 } } } }

/-!
Concrete capsule values used as witnesses.  `sampleCapsule` is a minimal
valid authenticated FMP capsule; its `UpdateImageTypeId` is the version-4
RFC 4122 GUID `12345678-1234-4678-9234-56789abcdef0` from the `guid.py`
doctests.
-/

/-- A valid version-4 GUID (RFC 4122 variant). -/
def sampleImageTypeGuid : EfiGuid :=
  { TimeLow := 0x12345678, TimeMid := 0x1234, TimeHighAndVersion := 0x4678,
    ClockSeqHighAndReserved := 0x92, ClockSeqLow := 0x34,
    Node := [0x56, 0x78, 0x9a, 0xbc, 0xde, 0xf0] }

/-- The GUID bytes of `22345678-1234-4678-9234-56789abcdef0`, a valid
version-4 GUID different from `sampleImageTypeGuid`, in the internal bytes
form a caller-supplied expected GUID string is converted to. -/
def otherExpectedGuidBytes : List Nat :=
  [0x78, 0x56, 0x34, 0x22, 0x34, 0x12, 0x78, 0x46,
   0x92, 0x34, 0x56, 0x78, 0x9a, 0xbc, 0xde, 0xf0]

/-- The firmware image authentication block of `sampleCapsule`
(`dwLength = 24`: header and certificate type only, empty `CertData`). -/
def sampleFia : FirmwareImageAuthentication :=
  { MonotonicCount := 1,
    AuthInfo := { Hdr := { dwLength := 24, wRevision := 0x200,
                           wCertificateType := WIN_CERT_TYPE_EFI_GUID },
                  CertType := pkcs7CertTypeGuid, CertData := [] } }

/-- A minimal valid authenticated FMP capsule: no padding, one payload,
version-3 image header with the authentication bit set, a one-byte
firmware image (`UpdateImageSize = 8 + 24 + 1 = 33`). -/
def sampleCapsule : Capsule :=
  { CapsuleHeader := { CapsuleGuid := fmpCapsuleIdGuid, HeaderSize := 28,
                       Flags := CAPSULE_FLAGS_PERSIST_ACROSS_RESET,
                       CapsuleImageSize := 125 },
    Padding := [],
    CapsuleBody :=
      { FirmwareManagementCapsuleHeader :=
          { Version := 1, EmbeddedDriverCount := 0, PayloadItemCount := 1,
            ItemOffsetList := [0] },
        Payload1 :=
          { FirmwareManagementCapsuleImageHeader :=
              { Version := 3, UpdateImageTypeId := sampleImageTypeGuid,
                UpdateImageIndex := 1, reserved_bytes := [0, 0, 0],
                UpdateImageSize := 33, UpdateVendorCodeSize := 0,
                UpdateHardwareInstance := some 0,
                ImageCapsuleSupport := some CAPSULE_SUPPORT_AUTHENTICATION },
            BinaryUpdateImage :=
              { FirmwareImageAuthentication := some sampleFia,
                FirmwareImage := [0xAB] } } },
    RemainingBytes := [] }

/-- The encoding of `sampleCapsule`; the build succeeds, so `getD` never
takes its default. -/
def sampleBytes : Bytes := (encode sampleCapsule).getD []

/-- `sampleCapsule` with `HeaderSize = 20` (concrete scenario A of the
fail-fast property). -/
def headerSize20Capsule : Capsule :=
  { sampleCapsule with
    CapsuleHeader := { sampleCapsule.CapsuleHeader with HeaderSize := 20 } }

/-- `sampleCapsule` downgraded to image header version 2 (no
`ImageCapsuleSupport`), for the de-authentication precondition. -/
def version2Capsule : Capsule :=
  { sampleCapsule with
    CapsuleBody := { sampleCapsule.CapsuleBody with
      Payload1 := { sampleCapsule.CapsuleBody.Payload1 with
        FirmwareManagementCapsuleImageHeader :=
          { sampleCapsule.CapsuleBody.Payload1.FirmwareManagementCapsuleImageHeader with
            Version := 2, ImageCapsuleSupport := none } } } }

/-- `sampleCapsule` with the unauthenticated payload variant (version 3,
authentication bit clear, no firmware image authentication). -/
def unauthCapsule : Capsule :=
  { sampleCapsule with
    CapsuleBody := { sampleCapsule.CapsuleBody with
      Payload1 := { sampleCapsule.CapsuleBody.Payload1 with
        FirmwareManagementCapsuleImageHeader :=
          { sampleCapsule.CapsuleBody.Payload1.FirmwareManagementCapsuleImageHeader with
            ImageCapsuleSupport := some 0 },
        BinaryUpdateImage :=
          { FirmwareImageAuthentication := none,
            FirmwareImage := [0xAB] } } } }

/-- `sampleImageTypeGuid` with an NCS-variant `ClockSeqHighAndReserved`
(`0x12`: top bit clear), which `uuid` does not classify as RFC 4122. -/
def badVariantGuid : EfiGuid :=
  { sampleImageTypeGuid with ClockSeqHighAndReserved := 0x12 }

/-- `sampleCapsule` with the NCS-variant `UpdateImageTypeId`. -/
def badVariantCapsule : Capsule :=
  { sampleCapsule with
    CapsuleBody := { sampleCapsule.CapsuleBody with
      Payload1 := { sampleCapsule.CapsuleBody.Payload1 with
        FirmwareManagementCapsuleImageHeader :=
          { sampleCapsule.CapsuleBody.Payload1.FirmwareManagementCapsuleImageHeader with
            UpdateImageTypeId := badVariantGuid } } } }

/-- The encoding of `badVariantCapsule`. -/
def badVariantBytes : Bytes := (encode badVariantCapsule).getD []

/-- The expected result of de-authenticating `sampleCapsule`: both sizes
decreased by `dwLength + 8 = 32`, authentication bit cleared, firmware
image authentication deleted. -/
def sampleDeauthed : Capsule :=
  { sampleCapsule with
    CapsuleHeader := { sampleCapsule.CapsuleHeader with CapsuleImageSize := 93 },
    CapsuleBody := { sampleCapsule.CapsuleBody with
      Payload1 := { sampleCapsule.CapsuleBody.Payload1 with
        FirmwareManagementCapsuleImageHeader :=
          { sampleCapsule.CapsuleBody.Payload1.FirmwareManagementCapsuleImageHeader with
            ImageCapsuleSupport := some 0, UpdateImageSize := 1 },
        BinaryUpdateImage :=
          { FirmwareImageAuthentication := none, FirmwareImage := [0xAB] } } } }

/-- The bytes `efi_guid.build` produces for `badVariantGuid`. -/
def badVariantGuidBytes : List Nat :=
  [0x78, 0x56, 0x34, 0x12, 0x34, 0x12, 0x78, 0x46,
   0x12, 0x34, 0x56, 0x78, 0x9a, 0xbc, 0xde, 0xf0]

/-!
Round-trip lemmas: whatever a parser consumed, the matching builder emits
again, byte for byte.
-/

theorem buildULE_of_parseULE : ∀ (k : Nat) (bs : Bytes) (v : Nat) (rest : Bytes),
    parseULE k bs = some (v, rest) → ∃ l, buildULE k v = some l ∧ bs = l ++ rest := by
  intro k
  induction k with
  | zero =>
    intro bs v rest h
    simp [parseULE] at h
    exact ⟨[], by simp [buildULE, h.1], by simp [h.2]⟩
  | succ k ih =>
    intro bs v rest h
    match bs with
    | [] => simp [parseULE] at h
    | b :: bs =>
      simp only [parseULE] at h
      by_cases hb : b < 256
      · rw [if_pos hb] at h
        cases hp : parseULE k bs with
        | none => rw [hp] at h; simp at h
        | some p =>
          obtain ⟨w, rest2⟩ := p
          rw [hp] at h
          simp at h
          obtain ⟨hv, hr⟩ := h
          obtain ⟨l, hbuild, hbs⟩ := ih bs w rest2 hp
          refine ⟨v % 256 :: l, ?_, ?_⟩
          · simp only [buildULE]
            have : v / 256 = w := by omega
            rw [this, hbuild]
          · subst hr hbs hv
            simp
            omega
      · rw [if_neg hb] at h; simp at h

theorem buildUInt_of_parseUInt {k : Nat} {bs : Bytes} {v : Int} {rest : Bytes}
    (h : parseUInt k bs = some (v, rest)) :
    ∃ l, buildUInt k v = some l ∧ bs = l ++ rest := by
  simp only [parseUInt, Option.map_eq_some'] at h
  obtain ⟨⟨n, r⟩, hp, he⟩ := h
  simp at he
  obtain ⟨hv, hr⟩ := he
  obtain ⟨l, hb, hbs⟩ := buildULE_of_parseULE k bs n r hp
  subst hr
  exact ⟨l, by simp [buildUInt, ← hv, hb], hbs⟩

theorem buildList_of_parseArrayN {α : Type} {p : Bytes → Option (α × Bytes)}
    {b : α → Option Bytes}
    (hp : ∀ {bs v rest}, p bs = some (v, rest) → ∃ l, b v = some l ∧ bs = l ++ rest) :
    ∀ (n : Nat) (bs : Bytes) (xs : List α) (rest : Bytes),
      parseArrayN p n bs = some (xs, rest) →
      xs.length = n ∧ ∃ l, buildList b xs = some l ∧ bs = l ++ rest := by
  intro n
  induction n with
  | zero =>
    intro bs xs rest h
    simp [parseArrayN] at h
    obtain ⟨hx, hr⟩ := h
    subst hx hr
    exact ⟨rfl, [], by simp [buildList], rfl⟩
  | succ n ih =>
    intro bs xs rest h
    simp only [parseArrayN, Option.bind_eq_bind, Option.bind_eq_some] at h
    obtain ⟨⟨x, bs1⟩, hpx, ⟨ys, rest2⟩, hpa, hfin⟩ := h
    simp at hfin
    obtain ⟨hx, hr⟩ := hfin
    subst hx hr
    obtain ⟨l1, hb1, hbs1⟩ := hp hpx
    obtain ⟨hlen, l2, hb2, hbs2⟩ := ih bs1 ys rest2 hpa
    refine ⟨by simp [hlen], l1 ++ l2, ?_, ?_⟩
    · simp [buildList, hb1, hb2]
    · subst hbs1 hbs2; simp

theorem buildCountedArray_of_parseCountedArray {α : Type}
    {p : Bytes → Option (α × Bytes)} {b : α → Option Bytes}
    (hp : ∀ {bs v rest}, p bs = some (v, rest) → ∃ l, b v = some l ∧ bs = l ++ rest)
    {count : Int} {bs : Bytes} {xs : List α} {rest : Bytes}
    (h : parseCountedArray p count bs = some (xs, rest)) :
    0 ≤ count ∧ xs.length = count.toNat ∧
      ∃ l, buildCountedArray b count xs = some l ∧ bs = l ++ rest := by
  simp only [parseCountedArray] at h
  by_cases hc : count < 0
  · rw [if_pos hc] at h; simp at h
  · rw [if_neg hc] at h
    obtain ⟨hlen, l, hb, hbs⟩ := buildList_of_parseArrayN hp count.toNat bs xs rest h
    exact ⟨by omega, hlen, l, by simp [buildCountedArray, hc, hlen, hb], hbs⟩

theorem buildEfiGuid_of_parseEfiGuid {bs : Bytes} {g : EfiGuid} {rest : Bytes}
    (h : parseEfiGuid bs = some (g, rest)) :
    ∃ l, buildEfiGuid g = some l ∧ bs = l ++ rest := by
  simp only [parseEfiGuid, Option.bind_eq_bind, Option.bind_eq_some] at h
  obtain ⟨⟨tl, bs1⟩, h1, ⟨tm, bs2⟩, h2, ⟨th, bs3⟩, h3, ⟨ch, bs4⟩, h4,
    ⟨cl, bs5⟩, h5, ⟨node, bs6⟩, h6, hfin⟩ := h
  simp at hfin
  obtain ⟨hg, hr⟩ := hfin
  obtain ⟨l1, hb1, he1⟩ := buildUInt_of_parseUInt h1
  obtain ⟨l2, hb2, he2⟩ := buildUInt_of_parseUInt h2
  obtain ⟨l3, hb3, he3⟩ := buildUInt_of_parseUInt h3
  obtain ⟨l4, hb4, he4⟩ := buildUInt_of_parseUInt h4
  obtain ⟨l5, hb5, he5⟩ := buildUInt_of_parseUInt h5
  obtain ⟨-, -, l6, hb6, he6⟩ :=
    buildCountedArray_of_parseCountedArray (fun {_ _ _} => buildUInt_of_parseUInt) h6
  refine ⟨l1 ++ l2 ++ l3 ++ l4 ++ l5 ++ l6, ?_, ?_⟩
  · simp [buildEfiGuid, ← hg, hb1, hb2, hb3, hb4, hb5, hb6]
  · subst he1 he2 he3 he4 he5 he6 hr
    simp

theorem buildCapsuleHeader_of_parseCapsuleHeader {bs : Bytes} {h : CapsuleHeader}
    {rest : Bytes} (hp : parseCapsuleHeader bs = some (h, rest)) :
    ∃ l, buildCapsuleHeader h = some l ∧ bs = l ++ rest := by
  simp only [parseCapsuleHeader, Option.bind_eq_bind, Option.bind_eq_some] at hp
  obtain ⟨⟨g, bs1⟩, h1, ⟨hs, bs2⟩, h2, ⟨fl, bs3⟩, h3, ⟨cis, bs4⟩, h4, hfin⟩ := hp
  simp at hfin
  obtain ⟨hh, hr⟩ := hfin
  obtain ⟨l1, hb1, he1⟩ := buildEfiGuid_of_parseEfiGuid h1
  obtain ⟨l2, hb2, he2⟩ := buildUInt_of_parseUInt h2
  obtain ⟨l3, hb3, he3⟩ := buildUInt_of_parseUInt h3
  obtain ⟨l4, hb4, he4⟩ := buildUInt_of_parseUInt h4
  refine ⟨l1 ++ l2 ++ l3 ++ l4, ?_, ?_⟩
  · simp [buildCapsuleHeader, ← hh, hb1, hb2, hb3, hb4]
  · subst he1 he2 he3 he4 hr
    simp

theorem buildFmcImageHeader_of_parseFmcImageHeader {bs : Bytes}
    {h : FirmwareManagementCapsuleImageHeader} {rest : Bytes}
    (hp : parseFmcImageHeader bs = some (h, rest)) :
    ∃ l, buildFmcImageHeader h = some l ∧ bs = l ++ rest := by
  simp only [parseFmcImageHeader, Option.bind_eq_bind, Option.bind_eq_some] at hp
  obtain ⟨⟨v, bs1⟩, h1, ⟨tid, bs2⟩, h2, ⟨idx, bs3⟩, h3, ⟨rsv, bs4⟩, h4,
    ⟨uis, bs5⟩, h5, ⟨uvcs, bs6⟩, h6, ⟨uhi, bs7⟩, h7, ⟨ics, bs8⟩, h8, hfin⟩ := hp
  simp at hfin
  obtain ⟨hh, hr⟩ := hfin
  obtain ⟨l1, hb1, he1⟩ := buildUInt_of_parseUInt h1
  obtain ⟨l2, hb2, he2⟩ := buildEfiGuid_of_parseEfiGuid h2
  obtain ⟨l3, hb3, he3⟩ := buildUInt_of_parseUInt h3
  obtain ⟨-, -, l4, hb4, he4⟩ :=
    buildCountedArray_of_parseCountedArray (fun {_ _ _} => buildUInt_of_parseUInt) h4
  obtain ⟨l5, hb5, he5⟩ := buildUInt_of_parseUInt h5
  obtain ⟨l6, hb6, he6⟩ := buildUInt_of_parseUInt h6
  have step7 : ∃ l7, (if 2 ≤ v then uhi.bind (buildUInt 8) else some []) = some l7
      ∧ bs6 = l7 ++ bs7 := by
    by_cases hv : 2 ≤ v
    · rw [if_pos hv] at h7
      simp only [Option.map_eq_some'] at h7
      obtain ⟨⟨w, r⟩, hpw, hew⟩ := h7
      simp at hew
      obtain ⟨hu, hbs⟩ := hew
      obtain ⟨l7, hb7, he7⟩ := buildUInt_of_parseUInt hpw
      exact ⟨l7, by simp [hv, ← hu, hb7], by rw [he7, hbs]⟩
    · rw [if_neg hv] at h7
      simp at h7
      obtain ⟨hu, hbs⟩ := h7
      exact ⟨[], by simp [hv], by simp [hbs]⟩
  obtain ⟨l7, hb7, he7⟩ := step7
  have step8 : ∃ l8, (if 3 ≤ v then ics.bind (buildUInt 8) else some []) = some l8
      ∧ bs7 = l8 ++ bs8 := by
    by_cases hv : 3 ≤ v
    · rw [if_pos hv] at h8
      simp only [Option.map_eq_some'] at h8
      obtain ⟨⟨w, r⟩, hpw, hew⟩ := h8
      simp at hew
      obtain ⟨hu, hbs⟩ := hew
      obtain ⟨l8, hb8, he8⟩ := buildUInt_of_parseUInt hpw
      exact ⟨l8, by simp [hv, ← hu, hb8], by rw [he8, hbs]⟩
    · rw [if_neg hv] at h8
      simp at h8
      obtain ⟨hu, hbs⟩ := h8
      exact ⟨[], by simp [hv], by simp [hbs]⟩
  obtain ⟨l8, hb8, he8⟩ := step8
  refine ⟨l1 ++ l2 ++ l3 ++ l4 ++ l5 ++ l6 ++ l7 ++ l8, ?_, ?_⟩
  · simp only [buildFmcImageHeader, Option.bind_eq_bind, ← hh]
    simp [hb1, hb2, hb3, hb4, hb5, hb6, hb7, hb8]
  · subst he1 he2 he3 he4 he5 he6 he7 he8 hr
    simp

theorem buildBinaryUpdateImage_of_parseBinaryUpdateImage {bs : Bytes}
    {h : FirmwareManagementCapsuleImageHeader} {bui : BinaryUpdateImage}
    {rest : Bytes} (hp : parseBinaryUpdateImage h bs = some (bui, rest)) :
    ∃ l, buildBinaryUpdateImage h bui = some l ∧ bs = l ++ rest := by
  simp only [parseBinaryUpdateImage, Option.bind_eq_bind, Option.bind_eq_some] at hp
  obtain ⟨cond, hcond, hp⟩ := hp
  cases cond with
  | true =>
    simp only [if_true] at hp
    simp only [Option.bind_eq_bind, Option.bind_eq_some] at hp
    obtain ⟨⟨mc, bs1⟩, h1, ⟨dwl, bs2⟩, h2, ⟨wrev, bs3⟩, h3, ⟨wct, bs4⟩, h4,
      ⟨ct, bs5⟩, h5, ⟨cd, bs6⟩, h6, ⟨fw, bs7⟩, h7, hfin⟩ := hp
    simp at hfin
    obtain ⟨hb, hr⟩ := hfin
    obtain ⟨l1, hb1, he1⟩ := buildUInt_of_parseUInt h1
    obtain ⟨l2, hb2, he2⟩ := buildUInt_of_parseUInt h2
    obtain ⟨l3, hb3, he3⟩ := buildUInt_of_parseUInt h3
    obtain ⟨l4, hb4, he4⟩ := buildUInt_of_parseUInt h4
    obtain ⟨l5, hb5, he5⟩ := buildEfiGuid_of_parseEfiGuid h5
    obtain ⟨-, -, l6, hb6, he6⟩ :=
      buildCountedArray_of_parseCountedArray (fun {_ _ _} => buildUInt_of_parseUInt) h6
    obtain ⟨-, -, l7, hb7, he7⟩ :=
      buildCountedArray_of_parseCountedArray (fun {_ _ _} => buildUInt_of_parseUInt) h7
    refine ⟨l1 ++ l2 ++ l3 ++ l4 ++ l5 ++ l6 ++ l7, ?_, ?_⟩
    · simp only [buildBinaryUpdateImage, Option.bind_eq_bind, ← hb, hcond]
      simp [hb1, hb2, hb3, hb4, hb5, hb6, hb7]
    · subst he1 he2 he3 he4 he5 he6 he7 hr
      simp
  | false =>
    simp only [Bool.false_eq_true, if_false] at hp
    simp only [Option.bind_eq_bind, Option.bind_eq_some] at hp
    obtain ⟨⟨fw, bs1⟩, h1, hfin⟩ := hp
    simp at hfin
    obtain ⟨hb, hr⟩ := hfin
    obtain ⟨-, -, l1, hb1, he1⟩ :=
      buildCountedArray_of_parseCountedArray (fun {_ _ _} => buildUInt_of_parseUInt) h1
    refine ⟨l1, ?_, ?_⟩
    · simp only [buildBinaryUpdateImage, Option.bind_eq_bind, ← hb, hcond]
      simp [hb1]
    · subst he1 hr
      rfl

theorem buildFmcHeader_of_parseFmcHeader {bs : Bytes}
    {h : FirmwareManagementCapsuleHeader} {rest : Bytes}
    (hp : parseFmcHeader bs = some (h, rest)) :
    ∃ l, buildFmcHeader h = some l ∧ bs = l ++ rest := by
  simp only [parseFmcHeader, Option.bind_eq_bind, Option.bind_eq_some] at hp
  obtain ⟨⟨v, bs1⟩, h1, ⟨edc, bs2⟩, h2, ⟨pic, bs3⟩, h3, ⟨iol, bs4⟩, h4, hfin⟩ := hp
  simp at hfin
  obtain ⟨hh, hr⟩ := hfin
  obtain ⟨l1, hb1, he1⟩ := buildUInt_of_parseUInt h1
  obtain ⟨l2, hb2, he2⟩ := buildUInt_of_parseUInt h2
  obtain ⟨l3, hb3, he3⟩ := buildUInt_of_parseUInt h3
  obtain ⟨-, -, l4, hb4, he4⟩ :=
    buildCountedArray_of_parseCountedArray (fun {_ _ _} => buildUInt_of_parseUInt) h4
  refine ⟨l1 ++ l2 ++ l3 ++ l4, ?_, ?_⟩
  · simp [buildFmcHeader, ← hh, hb1, hb2, hb3, hb4]
  · subst he1 he2 he3 he4 hr
    simp

/-- C2: for every byte buffer on which decode succeeds, encoding the
resulting capsule without any intervening mutation reproduces the original
buffer exactly: `encode(decode(bytes)) == bytes`. -/
theorem c2_encode_decode_roundtrip {bs : Bytes} {c : Capsule}
    (h : decode bs = some c) : encode c = some bs := by
  simp only [decode, parseCapsule, Option.bind_eq_bind, Option.bind_eq_some] at h
  obtain ⟨⟨hdr, bs1⟩, h1, ⟨pad, bs2⟩, h2, ⟨fmch, bs3⟩, h3, ⟨fmcih, bs4⟩, h4,
    ⟨bui, bs5⟩, h5, hfin⟩ := h
  simp at hfin
  obtain ⟨l1, hb1, he1⟩ := buildCapsuleHeader_of_parseCapsuleHeader h1
  obtain ⟨-, -, l2, hb2, he2⟩ :=
    buildCountedArray_of_parseCountedArray (fun {_ _ _} => buildUInt_of_parseUInt) h2
  obtain ⟨l3, hb3, he3⟩ := buildFmcHeader_of_parseFmcHeader h3
  obtain ⟨l4, hb4, he4⟩ := buildFmcImageHeader_of_parseFmcImageHeader h4
  obtain ⟨l5, hb5, he5⟩ := buildBinaryUpdateImage_of_parseBinaryUpdateImage h5
  subst he1 he2 he3 he4 he5
  simp only [encode, buildCapsule, Option.bind_eq_bind, ← hfin]
  simp [hb1, hb2, hb3, hb4, hb5]

/-!
Shape of a successfully decoded capsule: every computed variable-region
length was non-negative and is reflected exactly (never clamped) in the
corresponding list.
-/

theorem parseBinaryUpdateImage_shape {bs : Bytes}
    {h : FirmwareManagementCapsuleImageHeader} {bui : BinaryUpdateImage}
    {rest : Bytes} (hp : parseBinaryUpdateImage h bs = some (bui, rest)) :
    ∃ b, authVariantCond h = some b ∧
      bui.FirmwareImageAuthentication.isSome = b ∧
      (∀ fia, bui.FirmwareImageAuthentication = some fia →
        0 ≤ fia.AuthInfo.Hdr.dwLength - hdrSizeof - efiGuidSizeof ∧
        fia.AuthInfo.CertData.length
          = (fia.AuthInfo.Hdr.dwLength - hdrSizeof - efiGuidSizeof).toNat ∧
        0 ≤ h.UpdateImageSize - monotonicCountSizeof - fia.AuthInfo.Hdr.dwLength ∧
        bui.FirmwareImage.length
          = (h.UpdateImageSize - monotonicCountSizeof
              - fia.AuthInfo.Hdr.dwLength).toNat) ∧
      (bui.FirmwareImageAuthentication = none →
        0 ≤ h.UpdateImageSize ∧
        bui.FirmwareImage.length = h.UpdateImageSize.toNat) := by
  simp only [parseBinaryUpdateImage, Option.bind_eq_bind, Option.bind_eq_some] at hp
  obtain ⟨cond, hcond, hp⟩ := hp
  refine ⟨cond, hcond, ?_⟩
  cases cond with
  | true =>
    simp only [if_true] at hp
    simp only [Option.bind_eq_bind, Option.bind_eq_some] at hp
    obtain ⟨⟨mc, bs1⟩, h1, ⟨dwl, bs2⟩, h2, ⟨wrev, bs3⟩, h3, ⟨wct, bs4⟩, h4,
      ⟨ct, bs5⟩, h5, ⟨cd, bs6⟩, h6, ⟨fw, bs7⟩, h7, hfin⟩ := hp
    simp at hfin
    obtain ⟨hb, hr⟩ := hfin
    obtain ⟨hc6, hl6, -⟩ :=
      buildCountedArray_of_parseCountedArray (fun {_ _ _} => buildUInt_of_parseUInt) h6
    obtain ⟨hc7, hl7, -⟩ :=
      buildCountedArray_of_parseCountedArray (fun {_ _ _} => buildUInt_of_parseUInt) h7
    subst hb
    refine ⟨rfl, ?_, ?_⟩
    · intro fia hfia
      simp at hfia
      subst hfia
      exact ⟨hc6, hl6, hc7, hl7⟩
    · intro hnone
      simp at hnone
  | false =>
    simp only [Bool.false_eq_true, if_false] at hp
    simp only [Option.bind_eq_bind, Option.bind_eq_some] at hp
    obtain ⟨⟨fw, bs1⟩, h1, hfin⟩ := hp
    simp at hfin
    obtain ⟨hb, hr⟩ := hfin
    obtain ⟨hc1, hl1, -⟩ :=
      buildCountedArray_of_parseCountedArray (fun {_ _ _} => buildUInt_of_parseUInt) h1
    subst hb
    exact ⟨rfl, fun fia hfia => by simp at hfia, fun _ => ⟨hc1, hl1⟩⟩

theorem decode_shape {bs : Bytes} {c : Capsule} (h : decode bs = some c) :
    (0 ≤ c.CapsuleHeader.HeaderSize - capsuleHeaderSizeof ∧
      c.Padding.length = (c.CapsuleHeader.HeaderSize - capsuleHeaderSizeof).toNat) ∧
    ∃ b, authVariantCond
        c.CapsuleBody.Payload1.FirmwareManagementCapsuleImageHeader = some b ∧
      c.CapsuleBody.Payload1.BinaryUpdateImage.FirmwareImageAuthentication.isSome = b ∧
      (∀ fia,
        c.CapsuleBody.Payload1.BinaryUpdateImage.FirmwareImageAuthentication
            = some fia →
        0 ≤ fia.AuthInfo.Hdr.dwLength - hdrSizeof - efiGuidSizeof ∧
        fia.AuthInfo.CertData.length
          = (fia.AuthInfo.Hdr.dwLength - hdrSizeof - efiGuidSizeof).toNat ∧
        0 ≤ c.CapsuleBody.Payload1.FirmwareManagementCapsuleImageHeader.UpdateImageSize
            - monotonicCountSizeof - fia.AuthInfo.Hdr.dwLength ∧
        c.CapsuleBody.Payload1.BinaryUpdateImage.FirmwareImage.length
          = (c.CapsuleBody.Payload1.FirmwareManagementCapsuleImageHeader.UpdateImageSize
              - monotonicCountSizeof - fia.AuthInfo.Hdr.dwLength).toNat) ∧
      (c.CapsuleBody.Payload1.BinaryUpdateImage.FirmwareImageAuthentication = none →
        0 ≤ c.CapsuleBody.Payload1.FirmwareManagementCapsuleImageHeader.UpdateImageSize ∧
        c.CapsuleBody.Payload1.BinaryUpdateImage.FirmwareImage.length
          = c.CapsuleBody.Payload1.FirmwareManagementCapsuleImageHeader.UpdateImageSize.toNat) := by
  simp only [decode, parseCapsule, Option.bind_eq_bind, Option.bind_eq_some] at h
  obtain ⟨⟨hdr, bs1⟩, h1, ⟨pad, bs2⟩, h2, ⟨fmch, bs3⟩, h3, ⟨fmcih, bs4⟩, h4,
    ⟨bui, bs5⟩, h5, hfin⟩ := h
  obtain ⟨hc2, hl2, -⟩ :=
    buildCountedArray_of_parseCountedArray (fun {_ _ _} => buildUInt_of_parseUInt) h2
  obtain ⟨b, hb, hsome, hauth, hunauth⟩ := parseBinaryUpdateImage_shape h5
  simp only [Option.some.injEq] at hfin
  subst hfin
  exact ⟨⟨hc2, hl2⟩, b, hb, hsome, hauth, hunauth⟩

/-- C6: decode succeeds only when every computed variable-region length is
non-negative, and the decoded lists have exactly the computed lengths —
`HeaderSize ≥ 28` for the padding, `dwLength ≥ 24` for the certificate
data and `UpdateImageSize ≥ 8 + dwLength` for the authenticated firmware
image.  A buffer whose parsed fields make any of these lengths negative
therefore fails to decode (with nothing clamped), and `Option` makes the
failure atomic: no partially populated capsule is ever produced. -/
theorem c6_no_negative_computed_lengths {bs : Bytes} {c : Capsule}
    (h : decode bs = some c) :
    (capsuleHeaderSizeof ≤ c.CapsuleHeader.HeaderSize ∧
      c.Padding.length
        = (c.CapsuleHeader.HeaderSize - capsuleHeaderSizeof).toNat) ∧
    (∀ fia,
      c.CapsuleBody.Payload1.BinaryUpdateImage.FirmwareImageAuthentication
          = some fia →
      hdrSizeof + efiGuidSizeof ≤ fia.AuthInfo.Hdr.dwLength ∧
      fia.AuthInfo.CertData.length
        = (fia.AuthInfo.Hdr.dwLength - hdrSizeof - efiGuidSizeof).toNat ∧
      monotonicCountSizeof + fia.AuthInfo.Hdr.dwLength
        ≤ c.CapsuleBody.Payload1.FirmwareManagementCapsuleImageHeader.UpdateImageSize ∧
      c.CapsuleBody.Payload1.BinaryUpdateImage.FirmwareImage.length
        = (c.CapsuleBody.Payload1.FirmwareManagementCapsuleImageHeader.UpdateImageSize
            - monotonicCountSizeof - fia.AuthInfo.Hdr.dwLength).toNat) ∧
    (c.CapsuleBody.Payload1.BinaryUpdateImage.FirmwareImageAuthentication = none →
      0 ≤ c.CapsuleBody.Payload1.FirmwareManagementCapsuleImageHeader.UpdateImageSize ∧
      c.CapsuleBody.Payload1.BinaryUpdateImage.FirmwareImage.length
        = c.CapsuleBody.Payload1.FirmwareManagementCapsuleImageHeader.UpdateImageSize.toNat) := by
  obtain ⟨⟨hc, hl⟩, b, hcond, hsome, hauth, hunauth⟩ := decode_shape h
  refine ⟨⟨by omega, hl⟩, ?_, hunauth⟩
  intro fia hfia
  obtain ⟨h1, h2, h3, h4⟩ := hauth fia hfia
  exact ⟨by omega, h2, by omega, h4⟩

/-- C5: a decoded capsule carries the authenticated payload variant (the
`FirmwareImageAuthentication` substructure is present) if and only if
`ImageHeaderVersion < 3` or the `ImageCapsuleSupport` authentication bit is
set; otherwise the payload is the unauthenticated variant consisting of
exactly `UpdateImageSize` firmware image bytes.  The encoder selects its
variant by the same `authVariantCond` test. -/
theorem c5_auth_variant_selection {bs : Bytes} {c : Capsule}
    (h : decode bs = some c) :
    (c.CapsuleBody.Payload1.BinaryUpdateImage.FirmwareImageAuthentication.isSome
      ↔ (c.CapsuleBody.Payload1.FirmwareManagementCapsuleImageHeader.Version < 3
        ∨ ∃ ics,
          c.CapsuleBody.Payload1.FirmwareManagementCapsuleImageHeader.ImageCapsuleSupport
            = some ics ∧ Int.land ics CAPSULE_SUPPORT_AUTHENTICATION ≠ 0)) ∧
    (c.CapsuleBody.Payload1.BinaryUpdateImage.FirmwareImageAuthentication = none →
      c.CapsuleBody.Payload1.BinaryUpdateImage.FirmwareImage.length
        = c.CapsuleBody.Payload1.FirmwareManagementCapsuleImageHeader.UpdateImageSize.toNat) := by
  obtain ⟨-, b, hcond, hsome, -, hunauth⟩ := decode_shape h
  refine ⟨?_, fun hn => (hunauth hn).2⟩
  simp only [authVariantCond] at hcond
  by_cases hv :
      c.CapsuleBody.Payload1.FirmwareManagementCapsuleImageHeader.Version < 3
  · rw [if_pos hv] at hcond
    simp at hcond
    subst hcond
    simp [hsome, hv]
  · rw [if_neg hv] at hcond
    simp only [Option.map_eq_some'] at hcond
    obtain ⟨ics, hics, hb⟩ := hcond
    subst hb
    constructor
    · intro hs
      rw [hsome] at hs
      simp at hs
      exact Or.inr ⟨ics, hics, hs⟩
    · intro hor
      rw [hsome]
      rcases hor with hlt | ⟨ics2, hics2, hland⟩
      · exact absurd hlt hv
      · rw [hics2] at hics
        simp at hics
        subst hics
        simp [hland]

/-!
Validation engine properties.
-/

theorem runChecksLoop_failfast (c : Capsule) :
    ∀ (l : List (Capsule → Option Bool)) (k : Nat) (hk : k < l.length),
      (∀ i (hi : i < k), (l.get ⟨i, Nat.lt_trans hi hk⟩) c = some true) →
      (l.get ⟨k, hk⟩) c ≠ some true →
      runChecksLoop c false l true = (false, k + 1) := by
  intro l
  induction l with
  | nil => intro k hk; simp at hk
  | cons x xs ih =>
    intro k hk hpass hfail
    cases k with
    | zero =>
      simp only [List.get] at hfail
      simp only [runChecksLoop]
      cases hx : x c with
      | none => simp
      | some b =>
        cases b with
        | false => simp
        | true => exact absurd hx hfail
    | succ k =>
      have hx : x c = some true := hpass 0 (Nat.succ_pos k)
      have hk' : k < xs.length := Nat.lt_of_succ_lt_succ hk
      have hrec := ih k hk'
        (fun i hi => hpass (i + 1) (Nat.succ_lt_succ hi))
        hfail
      simp only [runChecksLoop, hx, Bool.true_and, Bool.and_true]
      simp [hrec]

/-- C3: if a capsule passes the first `k` validation rules and fails rule
`k + 1`, running the engine without force evaluates exactly the first
`k + 1` rules (later rules are never looked at) and the validation result
is failure.  (A rule fails when its check is `False` or raises.) -/
theorem c3_failfast_stops_at_first_failure (c : Capsule) (k : Nat)
    (hk : k < capsuleChecks.length)
    (hpass : ∀ i (hi : i < k), (capsuleChecks.get ⟨i, Nat.lt_trans hi hk⟩) c = some true)
    (hfail : (capsuleChecks.get ⟨k, hk⟩) c ≠ some true) :
    runChecksLoop c false capsuleChecks true = (false, k + 1) ∧
      sanity_check_capsule c false = false := by
  have h := runChecksLoop_failfast c capsuleChecks k hk hpass hfail
  exact ⟨h, by simp [sanity_check_capsule, h]⟩

theorem runChecksLoop_catchRule (c : Capsule) (force : Bool) :
    ∀ (l : List (Capsule → Option Bool)) (r : Bool),
      runChecksLoop c force (l.map catchRule) r = runChecksLoop c force l r := by
  intro l
  induction l with
  | nil => intro r; rfl
  | cons x xs ih =>
    intro r
    simp only [List.map, runChecksLoop, catchRule]
    cases hx : x c with
    | none => simp [ih]
    | some b => simp [ih]

/-- C9: the validation engine treats a rule whose evaluation raises exactly
as a failing rule: replacing every rule by its exception-catching version
(`none` becomes a definite failure) changes neither the result nor the
number of rules evaluated, for every capsule and force setting — no
exception escapes the engine, which always returns a boolean.  On a
capsule whose payload carries no `FirmwareImageAuthentication`, the four
auth rules (15 to 18) all raise. -/
theorem c9_rule_exceptions_become_failures (c : Capsule) (force : Bool) :
    (runChecksLoop c force (capsuleChecks.map catchRule) true
      = runChecksLoop c force capsuleChecks true) ∧
    (sanity_check_capsule c force
      = ((runChecksLoop c force (capsuleChecks.map catchRule) true).1 || force)) ∧
    (c.CapsuleBody.Payload1.BinaryUpdateImage.FirmwareImageAuthentication = none →
      (capsuleChecks.get ⟨14, by decide⟩) c = none ∧
      (capsuleChecks.get ⟨15, by decide⟩) c = none ∧
      (capsuleChecks.get ⟨16, by decide⟩) c = none ∧
      (capsuleChecks.get ⟨17, by decide⟩) c = none) := by
  have h := runChecksLoop_catchRule c force capsuleChecks true
  refine ⟨h, by simp only [sanity_check_capsule, h], ?_⟩
  intro hnone
  have e14 : (capsuleChecks.get ⟨14, by decide⟩) c
      = (c.CapsuleBody.Payload1.BinaryUpdateImage.FirmwareImageAuthentication).map
        (fun fia => decide (9 ≤ fia.AuthInfo.Hdr.dwLength)) := rfl
  have e15 : (capsuleChecks.get ⟨15, by decide⟩) c
      = (c.CapsuleBody.Payload1.BinaryUpdateImage.FirmwareImageAuthentication).map
        (fun fia => decide (fia.AuthInfo.Hdr.wRevision = 0x200)) := rfl
  have e16 : (capsuleChecks.get ⟨16, by decide⟩) c
      = (c.CapsuleBody.Payload1.BinaryUpdateImage.FirmwareImageAuthentication).map
        (fun fia => decide (fia.AuthInfo.Hdr.wCertificateType = WIN_CERT_TYPE_EFI_GUID)) := rfl
  have e17 : (capsuleChecks.get ⟨17, by decide⟩) c
      = (c.CapsuleBody.Payload1.BinaryUpdateImage.FirmwareImageAuthentication).bind
        (fun fia => (buildEfiGuid fia.AuthInfo.CertType).map
          (fun l => decide (l = EFI_CERT_TYPE_PKCS7_GUID))) := rfl
  rw [e14, e15, e16, e17, hnone]
  exact ⟨rfl, rfl, rfl, rfl⟩

/-!
Mutator properties.
-/

theorem nat_ldiff_one_and_one (m : Nat) : Nat.ldiff m 1 &&& 1 = 0 := by
  rw [Nat.and_one_is_mod]
  have h := Nat.testBit_ldiff m 1 0
  rw [Nat.testBit_zero] at h
  simp [Nat.testBit_zero] at h
  omega

theorem nat_ldiff_one_lor_one (m : Nat) : Nat.ldiff 1 (m ||| 1) = 0 := by
  apply Nat.eq_of_testBit_eq
  intro i
  rw [Nat.testBit_ldiff, Nat.zero_testBit]
  cases i with
  | zero => simp [Nat.testBit_lor, Nat.testBit_zero]
  | succ j =>
    have h1 : Nat.testBit 1 (j + 1) = false := by
      rw [Nat.testBit_succ]
      simp [Nat.zero_testBit]
    simp [h1]

/-- Clearing the authentication bit with `ics & ~CAPSULE_SUPPORT_AUTHENTICATION`
leaves a value whose authentication bit is zero, for every Python integer. -/
theorem int_clear_auth_bit (x : Int) :
    Int.land (Int.land x (Int.lnot CAPSULE_SUPPORT_AUTHENTICATION))
      CAPSULE_SUPPORT_AUTHENTICATION = 0 := by
  show Int.land (Int.land x (Int.lnot 1)) 1 = 0
  cases x with
  | ofNat m =>
    show Int.ofNat (Nat.ldiff m 1 &&& 1) = 0
    rw [nat_ldiff_one_and_one]
    rfl
  | negSucc m =>
    show Int.ofNat (Nat.ldiff 1 (m ||| 1)) = 0
    rw [nat_ldiff_one_lor_one]
    rfl

/-- C4: when `de_authenticate` succeeds (version at least 3, authenticated
payload present), the result is the input capsule with exactly these
changes: `CapsuleImageSize` and `UpdateImageSize` decreased by
`dwLength + 8`, the authentication bit of `ImageCapsuleSupport` cleared,
and the `FirmwareImageAuthentication` substructure deleted — every other
field is untouched (the conclusion is a record update of `c`).  The
cleared authentication bit makes the variant condition `false`, so a
subsequent encode produces the unauthenticated shape. -/
theorem c4_de_authenticate_effects (c : Capsule) (ics : Int)
    (fia : FirmwareImageAuthentication)
    (hv : ¬ (c.CapsuleBody.Payload1.FirmwareManagementCapsuleImageHeader.Version < 3))
    (hics : c.CapsuleBody.Payload1.FirmwareManagementCapsuleImageHeader.ImageCapsuleSupport
      = some ics)
    (hfia : c.CapsuleBody.Payload1.BinaryUpdateImage.FirmwareImageAuthentication
      = some fia) :
    de_authenticate c = some { c with
      CapsuleHeader := { c.CapsuleHeader with
        CapsuleImageSize := c.CapsuleHeader.CapsuleImageSize
          - (fia.AuthInfo.Hdr.dwLength + monotonicCountSizeof) },
      CapsuleBody := { c.CapsuleBody with
        Payload1 := { c.CapsuleBody.Payload1 with
          FirmwareManagementCapsuleImageHeader :=
            { c.CapsuleBody.Payload1.FirmwareManagementCapsuleImageHeader with
              ImageCapsuleSupport :=
                some (Int.land ics (Int.lnot CAPSULE_SUPPORT_AUTHENTICATION)),
              UpdateImageSize :=
                c.CapsuleBody.Payload1.FirmwareManagementCapsuleImageHeader.UpdateImageSize
                  - (fia.AuthInfo.Hdr.dwLength + monotonicCountSizeof) },
          BinaryUpdateImage := { c.CapsuleBody.Payload1.BinaryUpdateImage with
            FirmwareImageAuthentication := none } } } } ∧
    Int.land (Int.land ics (Int.lnot CAPSULE_SUPPORT_AUTHENTICATION))
      CAPSULE_SUPPORT_AUTHENTICATION = 0 ∧
    authVariantCond
      { c.CapsuleBody.Payload1.FirmwareManagementCapsuleImageHeader with
        ImageCapsuleSupport :=
          some (Int.land ics (Int.lnot CAPSULE_SUPPORT_AUTHENTICATION)),
        UpdateImageSize :=
          c.CapsuleBody.Payload1.FirmwareManagementCapsuleImageHeader.UpdateImageSize
            - (fia.AuthInfo.Hdr.dwLength + monotonicCountSizeof) }
      = some false := by
  refine ⟨?_, int_clear_auth_bit ics, ?_⟩
  · simp only [de_authenticate]
    rw [if_neg hv]
    rw [hics, hfia]
    rfl
  · simp only [authVariantCond]
    rw [if_neg hv]
    simp [int_clear_auth_bit ics]

/-- C7: de-authenticating a capsule whose image header version is below 3
always fails: the source calls `sys.exit(1)` before touching any field, so
the operation aborts (`none`) with the capsule unmodified, and no `force`
parameter exists that could downgrade this to a validation failure. -/
theorem c7_de_authenticate_version_precondition (c : Capsule)
    (hv : c.CapsuleBody.Payload1.FirmwareManagementCapsuleImageHeader.Version < 3) :
    de_authenticate c = none := by
  simp only [de_authenticate]
  rw [if_pos hv]

theorem int_testBit_xor_shifted_one (x : Int) (b j : Nat) :
    Int.testBit (Int.xor x ((1 : Int) <<< (b : Int))) j
      = Bool.xor (x.testBit j) (decide (b = j)) := by
  rw [Int.one_shiftLeft, Int.testBit_lxor]
  congr 1
  show Nat.testBit (2 ^ b) j = decide (b = j)
  exact Nat.testBit_two_pow

/-- C8: tampering with byte `n`, bit `b` of a non-empty firmware image
keeps the image length and flips exactly that one bit: a bit `(i, j)` of
the image differs from the original if and only if `i = n` and `j = b`.
Every field outside `FirmwareImage` is unchanged. -/
theorem c8_tamper_flips_exactly_one_bit (c : Capsule) (n b : Nat)
    (hn : n < c.CapsuleBody.Payload1.BinaryUpdateImage.FirmwareImage.length)
    (hb : b < 8) :
    (tamper c n b).CapsuleBody.Payload1.BinaryUpdateImage.FirmwareImage.length
      = c.CapsuleBody.Payload1.BinaryUpdateImage.FirmwareImage.length ∧
    (∀ i j,
      Int.testBit
          ((tamper c n b).CapsuleBody.Payload1.BinaryUpdateImage.FirmwareImage.getD i 0) j
        ≠ Int.testBit
          (c.CapsuleBody.Payload1.BinaryUpdateImage.FirmwareImage.getD i 0) j
      ↔ (i = n ∧ j = b)) ∧
    (tamper c n b).CapsuleHeader = c.CapsuleHeader ∧
    (tamper c n b).Padding = c.Padding ∧
    (tamper c n b).CapsuleBody.FirmwareManagementCapsuleHeader
      = c.CapsuleBody.FirmwareManagementCapsuleHeader ∧
    (tamper c n b).CapsuleBody.Payload1.FirmwareManagementCapsuleImageHeader
      = c.CapsuleBody.Payload1.FirmwareManagementCapsuleImageHeader ∧
    (tamper c n b).CapsuleBody.Payload1.BinaryUpdateImage.FirmwareImageAuthentication
      = c.CapsuleBody.Payload1.BinaryUpdateImage.FirmwareImageAuthentication ∧
    (tamper c n b).RemainingBytes = c.RemainingBytes := by
  have hset_eq : ∀ (l : List Int) (m : Nat) (v : Int), m < l.length →
      (l.set m v).getD m 0 = v := by
    intro l m v h
    simp [List.getD_eq_getElem?_getD, List.getElem?_set_eq_of_lt, h]
  have hset_ne : ∀ (l : List Int) (m i : Nat) (v : Int), i ≠ m →
      (l.set m v).getD i 0 = l.getD i 0 := by
    intro l m i v h
    simp [List.getD_eq_getElem?_getD, List.getElem?_set_ne (Ne.symm h)]
  have hfi : (tamper c n b).CapsuleBody.Payload1.BinaryUpdateImage.FirmwareImage
      = (c.CapsuleBody.Payload1.BinaryUpdateImage.FirmwareImage).set n
          (Int.xor
            ((c.CapsuleBody.Payload1.BinaryUpdateImage.FirmwareImage).getD n 0)
            ((1 : Int) <<< (b : Int))) := rfl
  refine ⟨by rw [hfi]; exact List.length_set .., ?_, rfl, rfl, rfl, rfl, rfl, rfl⟩
  intro i j
  rw [hfi]
  by_cases hi : i = n
  · subst hi
    rw [hset_eq _ _ _ hn, int_testBit_xor_shifted_one]
    by_cases hj : j = b
    · subst hj
      simp
    · have hbj : ¬ (b = j) := fun h => hj h.symm
      simp [hj, hbj]
  · rw [hset_ne _ _ _ _ hi]
    simp [hi]

/-!
GUID identity step.
-/

/-- C1 (code evaluation): on a decoded capsule whose `UpdateImageTypeId`
differs from the caller-supplied expected GUID, `check_capsule_guid`
returns `False` with `force` set, exactly as it does without `force` — the
source only logs a warning and never overrides the result, although its
own comment says it should return `True` in all cases when forced. -/
theorem c1_guid_mismatch_not_overridden_by_force :
    check_capsule_guid sampleCapsule true (some otherExpectedGuidBytes) true 0
      = some false ∧
    check_capsule_guid sampleCapsule true (some otherExpectedGuidBytes) false 0
      = some false := ⟨by decide, by decide⟩

/-- C10: some successfully decoded capsules make the GUID identity step
abort with an uncaught `ValueError` before identification or comparison:
the decoder applies no GUID validity check (here a capsule whose
`UpdateImageTypeId` has a non-RFC-4122 variant decodes fine), while `Guid`
construction validates variant, version and version-1 timestamp.  The
abort happens for every tool outcome, expected GUID, force setting and
current time — the force flag does not override it. -/
theorem c10_invalid_guid_aborts_identity :
    decode badVariantBytes = some badVariantCapsule ∧
    ∀ (toolOk : Bool) (exp : Option (List Nat)) (force : Bool) (now : Nat),
      check_capsule_guid badVariantCapsule toolOk exp force now = none := by
  refine ⟨by decide, ?_⟩
  intro toolOk exp force now
  have hbuild : buildEfiGuid
      badVariantCapsule.CapsuleBody.Payload1.FirmwareManagementCapsuleImageHeader.UpdateImageTypeId
      = some badVariantGuidBytes := by decide
  have hguid : ∀ nw : Nat, guidInit badVariantGuidBytes nw = none := by
    intro nw
    simp only [guidInit]
    rw [if_pos (by decide), if_neg (by decide)]
  simp [check_capsule_guid, hbuild, hguid]

/-!
Witnesses: each theorem with hypotheses applied at a concrete input.
-/

/-- Round-trip witness: `sampleBytes` decodes to `sampleCapsule` and
re-encodes to `sampleBytes`. -/
theorem c2_encode_decode_roundtrip_witness :
    decode sampleBytes = some sampleCapsule ∧
    encode sampleCapsule = some sampleBytes :=
  ⟨by decide, c2_encode_decode_roundtrip (by decide)⟩

/-- Fail-fast witness (concrete scenario A): the capsule with
`HeaderSize = 20` and a valid capsule GUID fails validation without force
after exactly two evaluated rules (capsule-guid, header-size). -/
theorem c3_failfast_witness :
    1 < capsuleChecks.length ∧
    runChecksLoop headerSize20Capsule false capsuleChecks true = (false, 2) ∧
    sanity_check_capsule headerSize20Capsule false = false := by
  have h := c3_failfast_stops_at_first_failure headerSize20Capsule 1 (by decide)
    (fun i hi => by
      have h0 : i = 0 := by omega
      subst h0
      exact (by decide :
        capsuleChecks.get ⟨0, by decide⟩ headerSize20Capsule = some true))
    (by decide)
  exact ⟨by decide, h.1, h.2⟩

/-- De-authentication witness: `sampleCapsule` satisfies the preconditions
and de-authenticates to `sampleDeauthed`. -/
theorem c4_de_authenticate_witness :
    ¬ (sampleCapsule.CapsuleBody.Payload1.FirmwareManagementCapsuleImageHeader.Version < 3) ∧
    sampleCapsule.CapsuleBody.Payload1.FirmwareManagementCapsuleImageHeader.ImageCapsuleSupport
      = some CAPSULE_SUPPORT_AUTHENTICATION ∧
    sampleCapsule.CapsuleBody.Payload1.BinaryUpdateImage.FirmwareImageAuthentication
      = some sampleFia ∧
    de_authenticate sampleCapsule = some sampleDeauthed := by
  have h := c4_de_authenticate_effects sampleCapsule CAPSULE_SUPPORT_AUTHENTICATION
    sampleFia (by decide) (by decide) (by decide)
  have hldiff : Nat.ldiff 1 1 = 0 := by
    have h0 := nat_ldiff_one_lor_one 0
    simpa using h0
  have hland : Int.land CAPSULE_SUPPORT_AUTHENTICATION
      (Int.lnot CAPSULE_SUPPORT_AUTHENTICATION) = 0 := by
    show Int.ofNat (Nat.ldiff 1 1) = 0
    rw [hldiff]
    rfl
  refine ⟨by decide, by decide, by decide, ?_⟩
  rw [h.1, hland]
  decide

/-- Variant-selection witness at `sampleBytes`/`sampleCapsule`. -/
theorem c5_auth_variant_selection_witness :
    decode sampleBytes = some sampleCapsule ∧
    (sampleCapsule.CapsuleBody.Payload1.BinaryUpdateImage.FirmwareImageAuthentication.isSome
      ↔ (sampleCapsule.CapsuleBody.Payload1.FirmwareManagementCapsuleImageHeader.Version < 3
        ∨ ∃ ics,
          sampleCapsule.CapsuleBody.Payload1.FirmwareManagementCapsuleImageHeader.ImageCapsuleSupport
            = some ics ∧ Int.land ics CAPSULE_SUPPORT_AUTHENTICATION ≠ 0)) ∧
    (sampleCapsule.CapsuleBody.Payload1.BinaryUpdateImage.FirmwareImageAuthentication = none →
      sampleCapsule.CapsuleBody.Payload1.BinaryUpdateImage.FirmwareImage.length
        = sampleCapsule.CapsuleBody.Payload1.FirmwareManagementCapsuleImageHeader.UpdateImageSize.toNat) := by
  have h := @c5_auth_variant_selection sampleBytes sampleCapsule (by decide)
  exact ⟨by decide, h.1, h.2⟩

/-- Length-constraint witness at `sampleBytes`/`sampleCapsule`. -/
theorem c6_no_negative_computed_lengths_witness :
    decode sampleBytes = some sampleCapsule ∧
    (capsuleHeaderSizeof ≤ sampleCapsule.CapsuleHeader.HeaderSize ∧
      sampleCapsule.Padding.length
        = (sampleCapsule.CapsuleHeader.HeaderSize - capsuleHeaderSizeof).toNat) ∧
    (∀ fia,
      sampleCapsule.CapsuleBody.Payload1.BinaryUpdateImage.FirmwareImageAuthentication
          = some fia →
      hdrSizeof + efiGuidSizeof ≤ fia.AuthInfo.Hdr.dwLength ∧
      monotonicCountSizeof + fia.AuthInfo.Hdr.dwLength
        ≤ sampleCapsule.CapsuleBody.Payload1.FirmwareManagementCapsuleImageHeader.UpdateImageSize) := by
  have h := @c6_no_negative_computed_lengths sampleBytes sampleCapsule (by decide)
  exact ⟨by decide, h.1, fun fia hfia => ⟨(h.2.1 fia hfia).1, (h.2.1 fia hfia).2.2.1⟩⟩

/-- De-authentication precondition witness: a version-2 capsule. -/
theorem c7_de_authenticate_precondition_witness :
    version2Capsule.CapsuleBody.Payload1.FirmwareManagementCapsuleImageHeader.Version < 3 ∧
    de_authenticate version2Capsule = none :=
  ⟨by decide, c7_de_authenticate_version_precondition version2Capsule (by decide)⟩

/-- Tamper witness: flipping bit 0 of byte 0 of `sampleCapsule`'s one-byte
firmware image. -/
theorem c8_tamper_witness :
    0 < sampleCapsule.CapsuleBody.Payload1.BinaryUpdateImage.FirmwareImage.length ∧
    (0 : Nat) < 8 ∧
    (tamper sampleCapsule 0 0).CapsuleBody.Payload1.BinaryUpdateImage.FirmwareImage.length
      = sampleCapsule.CapsuleBody.Payload1.BinaryUpdateImage.FirmwareImage.length ∧
    (∀ i j,
      Int.testBit
          ((tamper sampleCapsule 0 0).CapsuleBody.Payload1.BinaryUpdateImage.FirmwareImage.getD i 0) j
        ≠ Int.testBit
          (sampleCapsule.CapsuleBody.Payload1.BinaryUpdateImage.FirmwareImage.getD i 0) j
      ↔ (i = 0 ∧ j = 0)) ∧
    (tamper sampleCapsule 0 0).CapsuleHeader = sampleCapsule.CapsuleHeader := by
  have h := c8_tamper_flips_exactly_one_bit sampleCapsule 0 0 (by decide) (by decide)
  exact ⟨by decide, by decide, h.1, h.2.1, h.2.2.1⟩

/-- Exception-swallowing witness: on the unauthenticated capsule the
auth-length rule raises, and the engine result is unchanged by catching
rule exceptions explicitly. -/
theorem c9_rule_exceptions_witness :
    unauthCapsule.CapsuleBody.Payload1.BinaryUpdateImage.FirmwareImageAuthentication = none ∧
    (capsuleChecks.get ⟨14, by decide⟩) unauthCapsule = none ∧
    runChecksLoop unauthCapsule false (capsuleChecks.map catchRule) true
      = runChecksLoop unauthCapsule false capsuleChecks true := by
  have h := c9_rule_exceptions_become_failures unauthCapsule false
  exact ⟨rfl, (h.2.2 rfl).1, h.1⟩
